import Mathlib

/-!
Verification development for the glosco network-visibility tool.

The definitions below are a shallow embedding of the Rust sources:
`src/coding.rs` (the wire codec), `src/observe.rs` (the connection
tracker) and `src/sync.rs` (the fan-out transport client).  Machine
integers are modelled as `Nat` with explicit `% 2^w` at the points the
source casts; byte streams are `List Nat` (each entry a `u8` value);
fallible operations return `Option`.  Wall-clock `SystemTime` is an
`Int` counting nanoseconds since the UNIX epoch (`duration_since`
fails exactly on times before its argument, mirrored by `durationSince`
below).  Functions keep the names of the source items they embed.
-/

namespace Glosco

/-! ## Primitive integer codec (coding.rs, impl Coder for u8/u16/u32/u64)

The source encodes each multi-byte integer big-endian by recursive
halving: the high half is encoded, then the low half, each half cast
down with `as`, which truncates.  `encU8 n = [n % 256]` is the write of
the byte `n as u8`; the inner `%` makes each `encUk n` equal to the
source's encoding of `n as uk` for every `Nat` `n`. -/

def encU8 (n : Nat) : List Nat := [n % 256]

def encU16 (n : Nat) : List Nat := encU8 (n / 256) ++ encU8 n

def encU32 (n : Nat) : List Nat := encU16 (n / 65536) ++ encU16 n

def encU64 (n : Nat) : List Nat := encU32 (n / 4294967296) ++ encU32 n

/-- Read one byte (`impl Coder for u8`, via `read_exact` of one byte).
A wire byte is a `u8`; the `% 256` keeps the value in that range. -/
def decU8 : List Nat → Option (Nat × List Nat)
  | [] => none
  | b :: rest => some (b % 256, rest)

def decU16 (l : List Nat) : Option (Nat × List Nat) := do
  let (hi, l) ← decU8 l
  let (lo, l) ← decU8 l
  some (hi * 256 + lo, l)

def decU32 (l : List Nat) : Option (Nat × List Nat) := do
  let (hi, l) ← decU16 l
  let (lo, l) ← decU16 l
  some (hi * 65536 + lo, l)

def decU64 (l : List Nat) : Option (Nat × List Nat) := do
  let (hi, l) ← decU32 l
  let (lo, l) ← decU32 l
  some (hi * 4294967296 + lo, l)

/-! ## Data model (observe.rs) -/

/-- `IpAddr`: a v4 address is four octets, a v6 address is eight 16-bit
segments (as in `Ipv6Addr::new`). -/
inductive IpAddr where
  | v4 (a b c d : Nat)
  | v6 (s0 s1 s2 s3 s4 s5 s6 s7 : Nat)
deriving DecidableEq, Repr

inductive Protocol where
  | tcp
  | udp
deriving DecidableEq, Repr

structure Endpoint where
  addr : IpAddr
  port : Nat
deriving DecidableEq, Repr

structure Connection where
  interface : Nat
  src : Endpoint
  dst : Endpoint
  protocol : Protocol
deriving DecidableEq, Repr

/-- `SystemTime` is modelled as an `Int` of nanoseconds relative to
`UNIX_EPOCH` (negative values are times before the epoch). -/
structure State where
  as_of : Int
  connection : Connection
deriving DecidableEq, Repr

structure Problem where
  kind : Nat
  code : Nat
deriving DecidableEq, Repr

inductive Closed where
  | normally
  | reset
  | timedOut
  | connectionless
deriving DecidableEq, Repr

inductive Resolution where
  | address (addr : IpAddr)
  | alias (s : String)
  | service (target : String) (port : Option Nat)
  | text (texts : List (List Nat))
deriving DecidableEq, Repr

structure Name where
  name : String
  address : Option Resolution
deriving DecidableEq, Repr

inductive Message where
  | active (state : State)
  | ended (state : State) (closed : Closed)
  | failed (state : State) (problem : Problem)
  | name (state : State) (names : List Name)
deriving DecidableEq, Repr

/-! ## Mark constants (coding.rs) -/

def V4_MARK : Nat := 1
def V6_MARK : Nat := 2
def TCP_MARK : Nat := 1
def UDP_MARK : Nat := 2
def NORMAL_MARK : Nat := 1
def RESET_MARK : Nat := 2
def CLESS_MARK : Nat := 3
def TMOUT_MARK : Nat := 4
def ACTIVE_MARK : Nat := 1
def ENDED_MARK : Nat := 2
def FAILED_MARK : Nat := 3
def NAME_MARK : Nat := 4
def ADDR_MARK : Nat := 1
def ALIAS_MARK : Nat := 2
def SVC_MARK : Nat := 3
def TEXT_MARK : Nat := 4

/-! ## Length-prefixed sequences (coding.rs, CodingVec)

`CodingVec<T, Width>::encode` writes `Width::from_usize(len)` (a plain
`as` cast, so the length truncates mod `2^(8w)`) followed by every
element; decode reads the prefix and then exactly that many elements. -/

def vecEncode (wenc : Nat → List Nat) (enc : α → List Nat) (xs : List α) : List Nat :=
  wenc xs.length ++ xs.flatMap enc

def decodeN (dec : List Nat → Option (α × List Nat)) :
    Nat → List Nat → Option (List α × List Nat)
  | 0, l => some ([], l)
  | n + 1, l => do
      let (x, l) ← dec l
      let (xs, l) ← decodeN dec n l
      some (x :: xs, l)

def vecDecode (wdec : List Nat → Option (Nat × List Nat))
    (dec : List Nat → Option (α × List Nat)) (l : List Nat) :
    Option (List α × List Nat) := do
  let (len, l) ← wdec l
  decodeN dec len l

/-! ## Codec for the data model (coding.rs) -/

def IpAddr.encode : IpAddr → List Nat
  | .v4 a b c d => V4_MARK :: (encU8 a ++ encU8 b ++ encU8 c ++ encU8 d)
  | .v6 s0 s1 s2 s3 s4 s5 s6 s7 =>
      V6_MARK :: (encU16 s0 ++ encU16 s1 ++ encU16 s2 ++ encU16 s3 ++
        encU16 s4 ++ encU16 s5 ++ encU16 s6 ++ encU16 s7)

def IpAddr.decode (l : List Nat) : Option (IpAddr × List Nat) := do
  let (mark, l) ← decU8 l
  if mark = V4_MARK then
    let (a, l) ← decU8 l
    let (b, l) ← decU8 l
    let (c, l) ← decU8 l
    let (d, l) ← decU8 l
    some (.v4 a b c d, l)
  else if mark = V6_MARK then
    let (s0, l) ← decU16 l
    let (s1, l) ← decU16 l
    let (s2, l) ← decU16 l
    let (s3, l) ← decU16 l
    let (s4, l) ← decU16 l
    let (s5, l) ← decU16 l
    let (s6, l) ← decU16 l
    let (s7, l) ← decU16 l
    some (.v6 s0 s1 s2 s3 s4 s5 s6 s7, l)
  else none

def Protocol.number : Protocol → Nat
  | .tcp => TCP_MARK
  | .udp => UDP_MARK

def Protocol.encode (p : Protocol) : List Nat := [p.number]

def Protocol.decode (l : List Nat) : Option (Protocol × List Nat) := do
  let (mark, l) ← decU8 l
  if mark = TCP_MARK then some (.tcp, l)
  else if mark = UDP_MARK then some (.udp, l)
  else none

def Closed.number : Closed → Nat
  | .normally => NORMAL_MARK
  | .reset => RESET_MARK
  | .timedOut => TMOUT_MARK
  | .connectionless => CLESS_MARK

def Closed.encode (c : Closed) : List Nat := [c.number]

/-- `impl Coder for Closed`, decode arm: the source matches only
`NORMAL_MARK`, `RESET_MARK` and `CLESS_MARK`; every other byte,
including `TMOUT_MARK`, hits the catch-all error arm. -/
def Closed.decode (l : List Nat) : Option (Closed × List Nat) := do
  let (mark, l) ← decU8 l
  if mark = NORMAL_MARK then some (.normally, l)
  else if mark = RESET_MARK then some (.reset, l)
  else if mark = CLESS_MARK then some (.connectionless, l)
  else none

def Problem.encode (p : Problem) : List Nat := encU8 p.kind ++ encU8 p.code

def Problem.decode (l : List Nat) : Option (Problem × List Nat) := do
  let (kind, l) ← decU8 l
  let (code, l) ← decU8 l
  some ({ kind, code }, l)

/-- `impl Coder for SystemTime`: `duration_since(UNIX_EPOCH)` fails for
times before the epoch (mapped to an encode error); otherwise the
`u64` second count then the `u32` subsecond nanoseconds are written. -/
def sysTimeEncode (t : Int) : Option (List Nat) :=
  if t < 0 then none
  else some (encU64 (t.toNat / 1000000000) ++ encU32 (t.toNat % 1000000000))

def sysTimeDecode (l : List Nat) : Option (Int × List Nat) := do
  let (secs, l) ← decU64 l
  let (nanos, l) ← decU32 l
  some (((secs * 1000000000 + nanos : Nat) : Int), l)

def Endpoint.encode (e : Endpoint) : List Nat := e.addr.encode ++ encU16 e.port

def Endpoint.decode (l : List Nat) : Option (Endpoint × List Nat) := do
  let (addr, l) ← IpAddr.decode l
  let (port, l) ← decU16 l
  some ({ addr, port }, l)

/-- `impl Coder for Connection`: the `usize` interface index is written
as `interface as u16` (`encU16` applies that truncation). -/
def Connection.encode (c : Connection) : List Nat :=
  encU16 c.interface ++ c.src.encode ++ c.dst.encode ++ c.protocol.encode

def Connection.decode (l : List Nat) : Option (Connection × List Nat) := do
  let (interface, l) ← decU16 l
  let (src, l) ← Endpoint.decode l
  let (dst, l) ← Endpoint.decode l
  let (protocol, l) ← Protocol.decode l
  some ({ interface, src, dst, protocol }, l)

def State.encode (st : State) : Option (List Nat) := do
  let t ← sysTimeEncode st.as_of
  some (t ++ st.connection.encode)

def State.decode (l : List Nat) : Option (State × List Nat) := do
  let (as_of, l) ← sysTimeDecode l
  let (connection, l) ← Connection.decode l
  some ({ as_of, connection }, l)

/-- UTF-8 bytes of a string (`str::as_bytes`); this is the byte list
underlying `String.toUTF8`. -/
def utf8Bytes (s : String) : List Nat :=
  (s.data.flatMap String.utf8EncodeChar).map (fun b => b.toNat)

def listToByteArray (bs : List Nat) : ByteArray :=
  ⟨⟨bs.map (fun b => UInt8.ofNat b)⟩⟩

/-- `impl Coder for String`: the UTF-8 bytes as a `CodingVec<u8, u16>`
(2-byte length prefix). -/
def Str.encode (s : String) : List Nat := vecEncode encU16 encU8 (utf8Bytes s)

/-- String decode reads a `CodingVec<u8, u16>` and then validates the
bytes as UTF-8 (`String::from_utf8`), failing on invalid input. -/
def Str.decode (l : List Nat) : Option (String × List Nat) := do
  let (bs, l) ← vecDecode decU16 decU8 l
  match String.fromUTF8? (listToByteArray bs) with
  | some s => some (s, l)
  | none => none

def optionEncode (enc : α → List Nat) : Option α → List Nat
  | some inner => encU8 1 ++ enc inner
  | none => encU8 0

def optionDecode (dec : List Nat → Option (α × List Nat)) (l : List Nat) :
    Option (Option α × List Nat) := do
  let (mark, l) ← decU8 l
  if mark = 1 then
    let (x, l) ← dec l
    some (some x, l)
  else some (none, l)

def Resolution.number : Resolution → Nat
  | .address _ => ADDR_MARK
  | .alias _ => ALIAS_MARK
  | .service _ _ => SVC_MARK
  | .text _ => TEXT_MARK

def Resolution.encode (r : Resolution) : List Nat :=
  r.number % 256 :: match r with
  | .address addr => addr.encode
  | .alias s => Str.encode s
  | .service target port => Str.encode target ++ optionEncode encU16 port
  | .text texts => vecEncode encU8 (vecEncode encU8 encU8) texts

def Resolution.decode (l : List Nat) : Option (Resolution × List Nat) := do
  let (mark, l) ← decU8 l
  if mark = ADDR_MARK then
    let (addr, l) ← IpAddr.decode l
    some (.address addr, l)
  else if mark = ALIAS_MARK then
    let (s, l) ← Str.decode l
    some (.alias s, l)
  else if mark = SVC_MARK then
    let (target, l) ← Str.decode l
    let (port, l) ← optionDecode decU16 l
    some (.service target port, l)
  else if mark = TEXT_MARK then
    let (texts, l) ← vecDecode decU8 (vecDecode decU8 decU8) l
    some (.text texts, l)
  else none

def Name.encode (n : Name) : List Nat :=
  Str.encode n.name ++ optionEncode Resolution.encode n.address

def Name.decode (l : List Nat) : Option (Name × List Nat) := do
  let (name, l) ← Str.decode l
  let (address, l) ← optionDecode Resolution.decode l
  some ({ name, address }, l)

/-- `impl Coder for Message`: a mark byte, the `State`, then the
variant's extra fields; `Name` lists are `CodingVec<Name, u8>`. -/
def Message.encode : Message → Option (List Nat)
  | .active state => do
      let s ← state.encode
      some (ACTIVE_MARK :: s)
  | .ended state closed => do
      let s ← state.encode
      some (ENDED_MARK :: (s ++ closed.encode))
  | .failed state problem => do
      let s ← state.encode
      some (FAILED_MARK :: (s ++ problem.encode))
  | .name state names => do
      let s ← state.encode
      some (NAME_MARK :: (s ++ vecEncode encU8 Name.encode names))

def Message.decode (l : List Nat) : Option (Message × List Nat) := do
  let (mark, l) ← decU8 l
  if mark = ACTIVE_MARK then
    let (state, l) ← State.decode l
    some (.active state, l)
  else if mark = ENDED_MARK then
    let (state, l) ← State.decode l
    let (closed, l) ← Closed.decode l
    some (.ended state closed, l)
  else if mark = FAILED_MARK then
    let (state, l) ← State.decode l
    let (problem, l) ← Problem.decode l
    some (.failed state problem, l)
  else if mark = NAME_MARK then
    let (state, l) ← State.decode l
    let (names, l) ← vecDecode decU8 Name.decode l
    some (.name state names, l)
  else none

/-! ## Connection tracker (observe.rs)

Packet parsing is done by external crates (`pktparse`, `dns_parser`);
the embedding takes the parse results as `Option` inputs (a `none`
models a parse failure, which the tracker discards).  `SystemTime::now()`
is passed in explicitly as `now`; the `states` table (a `HashMap`) is a
function from `Connection` to the most recent `Message`. -/

structure TcpHeader where
  source_port : Nat
  dest_port : Nat
  flag_rst : Bool
  flag_fin : Bool
deriving DecidableEq, Repr

structure UdpHeader where
  source_port : Nat
  dest_port : Nat
deriving DecidableEq, Repr

structure HostPair where
  src : IpAddr
  dst : IpAddr
deriving DecidableEq, Repr

abbrev Table := Connection → Option Message

def emptyTable : Table := fun _ => none

def tableInsert (states : Table) (conn : Connection) (m : Message) : Table :=
  fun c => if c = conn then some m else states c

def KEEPALIVE_SECS : Nat := 30

/-- The keepalive window compared against at `Duration` (nanosecond)
precision. -/
def keepaliveNanos : Nat := KEEPALIVE_SECS * 1000000000

/-- `SystemTime::duration_since`: the elapsed duration (in nanoseconds),
or an error when `earlier` is later than `t`. -/
def durationSince (t earlier : Int) : Option Nat :=
  if earlier ≤ t then some (t - earlier).toNat else none

/-- The guard in `Observer::connection_open`:
`now.duration_since(as_of).map(d gt 30s).unwrap_or(false)`. -/
def refreshDue (now as_of : Int) : Bool :=
  match durationSince now as_of with
  | some d => keepaliveNanos < d
  | none => false

/-- `Observer::connection_open`: heartbeat-suppressed Active emission. -/
def connection_open (now : Int) (states : Table) (conn : Connection) :
    List Message × Table :=
  match states conn with
  | some (Message.active state) =>
      if refreshDue now state.as_of then
        let message := Message.active { as_of := now, connection := conn }
        ([message], tableInsert states conn message)
      else ([], states)
  | _ =>
      let message := Message.active { as_of := now, connection := conn }
      ([message], tableInsert states conn message)

/-- `Observer::connection_closed`: unconditional Ended emission. -/
def connection_closed (now : Int) (states : Table) (conn : Connection)
    (how : Closed) : List Message × Table :=
  let message := Message.ended { as_of := now, connection := conn } how
  ([message], tableInsert states conn message)

/-- `Observer::connection_unavail`: unconditional Failed emission. -/
def connection_unavail (now : Int) (states : Table) (conn : Connection)
    (problem : Problem) : List Message × Table :=
  let message := Message.failed { as_of := now, connection := conn } problem
  ([message], tableInsert states conn message)

/-- `Observer::handle_tcp`: the `Connection` is built exactly as
observed (source endpoint from the packet's source); RST or FIN routes
to `connection_closed` (RST wins when both are set), anything else to
`connection_open`. -/
def handle_tcp (now : Int) (states : Table) (interface : Nat)
    (parsed : Option TcpHeader) (hosts : HostPair) : List Message × Table :=
  match parsed with
  | none => ([], states)
  | some pkt =>
      let conn : Connection :=
        { interface
          src := { addr := hosts.src, port := pkt.source_port }
          dst := { addr := hosts.dst, port := pkt.dest_port }
          protocol := .tcp }
      if pkt.flag_rst || pkt.flag_fin then
        connection_closed now states conn (if pkt.flag_rst then .reset else .normally)
      else
        connection_open now states conn

/-! DNS metadata (dns_parser results and the repo's From conversions). -/

structure DnsQuestion where
  qname : String
deriving DecidableEq, Repr

inductive RData where
  | a (v0 v1 v2 v3 : Nat)
  | aaaa (s0 s1 s2 s3 s4 s5 s6 s7 : Nat)
  | cname (s : String)
  | mx (exchange : String)
  | srv (target : String) (port : Nat)
  | txt (texts : List (List Nat))
  | otherRecord
deriving DecidableEq, Repr

structure ResourceRecord where
  name : String
  rdata : RData
deriving DecidableEq, Repr

structure DnsPacket where
  questions : List DnsQuestion
  answers : List ResourceRecord
deriving DecidableEq, Repr

/-- `impl From of ResourceRecord for Name` in observe.rs. -/
def recordToName (r : ResourceRecord) : Name :=
  { name := r.name
    address :=
      match r.rdata with
      | .a v0 v1 v2 v3 => some (.address (.v4 v0 v1 v2 v3))
      | .aaaa s0 s1 s2 s3 s4 s5 s6 s7 => some (.address (.v6 s0 s1 s2 s3 s4 s5 s6 s7))
      | .cname s => some (.alias s)
      | .mx exchange => some (.service exchange none)
      | .srv target port => some (.service target (some port))
      | .txt texts => some (.text texts)
      | .otherRecord => none }

/-- `impl From of Question for Name` in observe.rs. -/
def questionToName (q : DnsQuestion) : Name :=
  { name := q.qname, address := none }

/-- `Observer::send_names`: an `Ended(Connectionless)` through
`connection_closed` (which updates the table), then the `Name` message
appended (not stored in the table). -/
def send_names (now : Int) (states : Table) (conn : Connection)
    (names : List Name) : List Message × Table :=
  let (messages, states) := connection_closed now states conn .connectionless
  (messages ++ [Message.name { as_of := now, connection := conn } names], states)

/-- `Observer::handle_dns`: a failed DNS parse or an empty question
section yields nothing; otherwise the questions then the answers are
converted to `Name` records and sent via `send_names`. -/
def handle_dns (now : Int) (states : Table) (dns : Option DnsPacket)
    (conn : Connection) : List Message × Table :=
  match dns with
  | none => ([], states)
  | some d =>
      if d.questions.isEmpty then ([], states)
      else
        send_names now states conn
          (d.questions.map questionToName ++ d.answers.map recordToName)

/-- `Observer::handle_udp`: port 53 on either side routes the payload's
DNS parse to `handle_dns`; any other UDP packet immediately becomes
`Ended(Connectionless)`. -/
def handle_udp (now : Int) (states : Table) (interface : Nat)
    (parsed : Option UdpHeader) (dns : Option DnsPacket) (hosts : HostPair) :
    List Message × Table :=
  match parsed with
  | none => ([], states)
  | some pkt =>
      let conn : Connection :=
        { interface
          src := { addr := hosts.src, port := pkt.source_port }
          dst := { addr := hosts.dst, port := pkt.dest_port }
          protocol := .udp }
      if pkt.dest_port = 53 || pkt.source_port = 53 then
        handle_dns now states dns conn
      else
        connection_closed now states conn .connectionless

/-- Parse results feeding `Observer::handle_icmp`: the header's code
already mapped to a `Problem` via the `From` table, plus the payload
reparsed as UDP and as TCP. -/
structure IcmpParse where
  problem : Problem
  udpEmb : Option UdpHeader
  tcpEmb : Option TcpHeader
deriving DecidableEq, Repr

/-- `Observer::handle_icmp`: recover the embedded flow by trying UDP
first, then TCP; with no embedded flow nothing is emitted. -/
def handle_icmp (now : Int) (states : Table) (interface : Nat)
    (parsed : Option IcmpParse) (hosts : HostPair) : List Message × Table :=
  match parsed with
  | none => ([], states)
  | some pkt =>
      let conn : Option Connection :=
        match pkt.udpEmb with
        | some emb => some
            { interface
              src := { addr := hosts.src, port := emb.source_port }
              dst := { addr := hosts.dst, port := emb.dest_port }
              protocol := .udp }
        | none =>
            match pkt.tcpEmb with
            | some emb => some
                { interface
                  src := { addr := hosts.src, port := emb.source_port }
                  dst := { addr := hosts.dst, port := emb.dest_port }
                  protocol := .tcp }
            | none => none
      match conn with
      | some conn => connection_unavail now states conn pkt.problem
      | none => ([], states)

/-- Repeated classification of the same TCP packet (for the terminal
event counting property): each step runs `handle_tcp` on the table the
previous step produced and the emitted messages are concatenated. -/
def iterTcp (now : Int) (states : Table) (interface : Nat)
    (pkt : TcpHeader) (hosts : HostPair) : Nat → List Message × Table
  | 0 => ([], states)
  | n + 1 =>
      let (messages, states) := handle_tcp now states interface (some pkt) hosts
      let (rest, states) := iterTcp now states interface pkt hosts n
      (messages ++ rest, states)

/-! ## Fan-out transport (sync.rs) -/

/-- `RETRY_BACKOFF_WIN.0`: the consecutive-failure count compared
against. -/
def RETRY_BACKOFF_TRIES : Nat := 5

/-- `RETRY_BACKOFF_WIN.1` in seconds. -/
def RETRY_BACKOFF_SECS : Nat := 10

/-- The connect loop of `client_thread`, as attempt start times (in
seconds, connects themselves taking no time): `tries` counts previous
consecutive failures, `start` is the penalty-window origin and `now`
the current instant.  When `tries > RETRY_BACKOFF_WIN.0` the thread
sleeps until `start + 10s` (`saturating_duration_since`) and resets
`start`.  Each entry of the result is the instant one connect attempt
starts; the list ends after a successful attempt (`outcomes` entry
`true`). -/
def connectAttempts : List Bool → Nat → Nat → Nat → List Nat
  | [], _, _, _ => []
  | o :: rest, tries, start, now =>
      let now' := if RETRY_BACKOFF_TRIES < tries then max now (start + RETRY_BACKOFF_SECS) else now
      let start' := if RETRY_BACKOFF_TRIES < tries then now' else start
      now' :: (if o then [] else connectAttempts rest (tries + 1) start' now')

/-- Attempt start times of one worker whose connect outcomes are
`outcomes`, the streak beginning at instant `t0` (`tries = 0`,
`start = Instant::now()`). -/
def attemptTimes (outcomes : List Bool) (t0 : Nat) : List Nat :=
  connectAttempts outcomes 0 t0 t0

/-- Modelled from the spec: `impl Coder for Vec of u8` is referenced by
`sync.rs` (`Client::send_frame`) and `main.rs` (`client_thread`) but its
definition is absent from the sources; per the spec's outer framing it
is a 2-byte big-endian length prefix followed by exactly that many
payload bytes (`CodingVec` with a `u16` width). -/
def vecU8Encode (bytes : List Nat) : List Nat := vecEncode encU16 encU8 bytes

/-- `ClientConfig::build`: the hello buffer is the identity string,
wire-encoded (one application of the String coder, nothing else). -/
def client_hello (ident : String) : List Nat := Str.encode ident

/-- `Client::send_frame`: one outer frame around an encoded payload. -/
def send_frame (bytes : List Nat) : List Nat := vecU8Encode bytes

/-- The byte stream one worker writes on a successful connection
(`client_thread`): the hello buffer once, then each queued frame in
order. -/
def worker_stream (ident : String) (frames : List (List Nat)) : List Nat :=
  client_hello ident ++ (frames.map send_frame).flatten

/-- The `State` every `Message` variant carries. -/
def Message.stateOf : Message → State
  | .active state => state
  | .ended state _ => state
  | .failed state _ => state
  | .name state _ => state

/-! ## Concrete fixtures used by counterexamples and witnesses -/

def ipA : IpAddr := .v4 10 0 0 1

def ipB : IpAddr := .v4 10 0 0 2

def connAB : Connection :=
  { interface := 0
    src := { addr := ipA, port := 4000 }
    dst := { addr := ipB, port := 80 }
    protocol := .tcp }

def connBA : Connection :=
  { interface := 0
    src := { addr := ipB, port := 80 }
    dst := { addr := ipA, port := 4000 }
    protocol := .tcp }

def msgTimedOut : Message := .ended { as_of := 0, connection := connAB } .timedOut

/-! ## Helper lemmas -/

theorem flatMap_encU8 (xs : List Nat) (h : ∀ b ∈ xs, b < 256) :
    xs.flatMap encU8 = xs := by
  induction xs with
  | nil => rfl
  | cons x xs ih =>
      have hx : x < 256 := h x (by simp)
      simp [encU8, Nat.mod_eq_of_lt hx, ih (fun b hb => h b (by simp [hb]))]

theorem decodeN_decU8 (xs r : List Nat) (h : ∀ b ∈ xs, b < 256) :
    ∀ k, k ≤ xs.length →
      decodeN decU8 k (xs ++ r) = some (xs.take k, xs.drop k ++ r) := by
  induction xs generalizing r with
  | nil =>
      intro k hk
      have hk0 : k = 0 := Nat.le_zero.mp hk
      subst hk0
      rfl
  | cons x xs ih =>
      intro k hk
      match k with
      | 0 => rfl
      | k + 1 =>
          have hx : x < 256 := h x (by simp)
          simp only [decodeN, List.cons_append, decU8, Nat.mod_eq_of_lt hx,
            Option.bind_eq_bind, Option.some_bind]
          rw [ih r (fun b hb => h b (by simp [hb])) k (by simpa using hk)]
          simp

theorem decU16_encU16 (n : Nat) (r : List Nat) :
    decU16 (encU16 n ++ r) = some (n % 65536, r) := by
  simp only [decU16, encU16, encU8, decU8, List.cons_append, List.nil_append,
    Option.bind_eq_bind, Option.some_bind]
  have : n / 256 % 256 % 256 * 256 + n % 256 % 256 = n % 65536 := by omega
  rw [this]

theorem decU32_encU32 (n : Nat) (r : List Nat) :
    decU32 (encU32 n ++ r) = some (n % 4294967296, r) := by
  simp only [decU32, encU32, List.append_assoc, Option.bind_eq_bind]
  rw [decU16_encU16]
  simp only [Option.some_bind]
  rw [decU16_encU16]
  simp only [Option.some_bind]
  have : n / 65536 % 65536 * 65536 + n % 65536 = n % 4294967296 := by omega
  rw [this]

theorem refreshDue_iff (now as_of : Int) :
    refreshDue now as_of = true ↔ (30 * 1000000000 : Int) < now - as_of := by
  by_cases h : as_of ≤ now
  · simp only [refreshDue, durationSince, keepaliveNanos, KEEPALIVE_SECS, if_pos h,
      decide_eq_true_eq]
    omega
  · simp only [refreshDue, durationSince, keepaliveNanos, KEEPALIVE_SECS, if_neg h]
    constructor
    · intro hc
      simp at hc
    · intro hc
      have h2 : now < as_of := lt_of_not_le h
      exfalso
      omega

theorem connection_open_active (now : Int) (states : Table) (conn : Connection)
    (st : State) (h : states conn = some (.active st)) :
    ((30 * 1000000000 : Int) < now - st.as_of →
      connection_open now states conn =
        ([Message.active { as_of := now, connection := conn }],
         tableInsert states conn (Message.active { as_of := now, connection := conn }))) ∧
    (¬ (30 * 1000000000 : Int) < now - st.as_of →
      connection_open now states conn = ([], states)) := by
  constructor
  · intro hlt
    have hdue : refreshDue now st.as_of = true := (refreshDue_iff now st.as_of).mpr hlt
    simp [connection_open, h, hdue]
  · intro hge
    have hdue : refreshDue now st.as_of = false := by
      rw [← Bool.not_eq_true, refreshDue_iff]
      exact hge
    simp [connection_open, h, hdue]

theorem iterTcp_rst (now : Int) (interface : Nat) (pkt : TcpHeader)
    (hosts : HostPair) (hrst : pkt.flag_rst = true) :
    ∀ (n : Nat) (states : Table),
      (iterTcp now states interface pkt hosts n).1.length = n ∧
      ∀ m ∈ (iterTcp now states interface pkt hosts n).1,
        ∃ st, m = Message.ended st .reset := by
  intro n
  induction n with
  | zero => intro states; simp [iterTcp]
  | succ n ih =>
      intro states
      simp only [iterTcp, handle_tcp, hrst, Bool.true_or, if_pos, connection_closed]
      constructor
      · simp [(ih _).1]
      · intro m hm
        simp only [List.mem_append, List.mem_singleton] at hm
        rcases hm with hm | hm
        · subst hm
          exact ⟨_, rfl⟩
        · exact (ih _).2 m hm

theorem decU8_encU8 (n : Nat) (r : List Nat) :
    decU8 (encU8 n ++ r) = some (n % 256, r) := by
  simp only [encU8, List.cons_append, List.nil_append, decU8, Nat.mod_mod_of_dvd]
  rw [Nat.mod_mod_of_dvd _ (dvd_refl 256)]

theorem cvByteTruncation (M : Nat) (hM : 0 < M) (wenc : Nat → List Nat)
    (wdec : List Nat → Option (Nat × List Nat))
    (hw : ∀ n r, wdec (wenc n ++ r) = some (n % M, r))
    (xs : List Nat) (hb : ∀ b ∈ xs, b < 256) (hlen : M ≤ xs.length) :
    vecEncode wenc encU8 xs = wenc xs.length ++ xs ∧
    vecDecode wdec decU8 (vecEncode wenc encU8 xs) =
      some (xs.take (xs.length % M), xs.drop (xs.length % M)) ∧
    xs.take (xs.length % M) ≠ xs := by
  have hfm : xs.flatMap encU8 = xs := flatMap_encU8 xs hb
  have henc : vecEncode wenc encU8 xs = wenc xs.length ++ xs := by
    simp [vecEncode, hfm]
  have hk : xs.length % M < M := Nat.mod_lt _ hM
  have hkle : xs.length % M ≤ xs.length := le_trans (le_of_lt hk) hlen
  refine ⟨henc, ?_, ?_⟩
  · rw [henc]
    simp only [vecDecode, Option.bind_eq_bind]
    rw [hw]
    simp only [Option.some_bind]
    have hdec : decodeN decU8 (xs.length % M) xs =
        some (xs.take (xs.length % M), xs.drop (xs.length % M)) := by
      have h2 := decodeN_decU8 xs [] hb (xs.length % M) hkle
      simpa using h2
    exact hdec
  · intro hEq
    have hlen2 := congrArg List.length hEq
    simp only [List.length_take] at hlen2
    omega

/-! ## Claims -/

/-- C1: the claim says a packet observed A-to-B and one observed B-to-A
canonicalize to the same state-table key.  The code builds the
`Connection` exactly as observed (no canonicalization step exists in
`Observer::handle_tcp` / `handle_udp`), so the two directions of one
TCP flow produce two distinct keys and two distinct Active messages:
the A-to-B observation leaves no entry under the B-to-A key. -/
theorem C1_tracker_key_not_canonical :
    (handle_tcp 0 emptyTable 0
        (some { source_port := 4000, dest_port := 80, flag_rst := false, flag_fin := false })
        { src := ipA, dst := ipB }).1 =
      [Message.active { as_of := 0, connection := connAB }] ∧
    (handle_tcp 0 emptyTable 0
        (some { source_port := 80, dest_port := 4000, flag_rst := false, flag_fin := false })
        { src := ipB, dst := ipA }).1 =
      [Message.active { as_of := 0, connection := connBA }] ∧
    connAB ≠ connBA ∧
    (handle_tcp 0 emptyTable 0
        (some { source_port := 4000, dest_port := 80, flag_rst := false, flag_fin := false })
        { src := ipA, dst := ipB }).2 connAB =
      some (Message.active { as_of := 0, connection := connAB }) ∧
    (handle_tcp 0 emptyTable 0
        (some { source_port := 4000, dest_port := 80, flag_rst := false, flag_fin := false })
        { src := ipA, dst := ipB }).2 connBA = none := by
  decide

/-- C2: the claim says decode is a left inverse of encode for every
constructible `Message`.  For `Ended(_, TimedOut)` the encoder emits the
`Closed` tag byte 4 but `Closed::decode` has no arm for `TMOUT_MARK`,
so decoding the encoder's own output fails. -/
theorem C2_timedout_roundtrip_fails :
    Message.encode msgTimedOut =
      some [2, 0, 0, 0, 0, 0, 0, 0, 0, 0, 0, 0, 0, 0, 0,
            1, 10, 0, 0, 1, 15, 160, 1, 10, 0, 0, 2, 0, 80, 1, 4] ∧
    Message.decode [2, 0, 0, 0, 0, 0, 0, 0, 0, 0, 0, 0, 0, 0, 0,
            1, 10, 0, 0, 1, 15, 160, 1, 10, 0, 0, 2, 0, 80, 1, 4] = none := by
  decide

/-- C3 counterexample: the claim says a non-terminating TCP packet for
a tracked Active connection refreshes the heartbeat when `now - as_of`
is at least 30 seconds.  At exactly 30 seconds (the claim's boundary)
the code's strict `gt` comparison emits nothing and leaves the table
untouched. -/
theorem C3_thirty_seconds_exactly_no_refresh :
    (30 * 1000000000 : Int) - 0 ≥ 30 * 1000000000 ∧
    (connection_open (30 * 1000000000)
        (tableInsert emptyTable connAB (Message.active { as_of := 0, connection := connAB }))
        connAB).1 = [] ∧
    (connection_open (30 * 1000000000)
        (tableInsert emptyTable connAB (Message.active { as_of := 0, connection := connAB }))
        connAB).2 connAB =
      some (Message.active { as_of := 0, connection := connAB }) := by
  decide

/-- C3 (amended): with a table entry `Active(State(as_of, _))` at key C,
a non-terminating TCP classification at `now` emits a refreshed Active
and overwrites the entry iff `now - as_of` exceeds 30 seconds strictly,
and emits nothing (leaving the table unchanged) otherwise; hence two
Active classifications emit twice iff they are strictly more than 30
seconds apart, and once otherwise. -/
theorem C3_heartbeat_strict_gate :
    (∀ (now : Int) (states : Table) (conn : Connection) (st : State),
      states conn = some (.active st) →
      (((30 * 1000000000 : Int) < now - st.as_of →
        connection_open now states conn =
          ([Message.active { as_of := now, connection := conn }],
           tableInsert states conn (Message.active { as_of := now, connection := conn }))) ∧
       (¬ (30 * 1000000000 : Int) < now - st.as_of →
        connection_open now states conn = ([], states)))) ∧
    (∀ (t0 t1 : Int) (conn : Connection),
      (connection_open t0 emptyTable conn).1.length = 1 ∧
      ((connection_open t1 (connection_open t0 emptyTable conn).2 conn).1.length =
        if (30 * 1000000000 : Int) < t1 - t0 then 1 else 0)) := by
  constructor
  · intro now states conn st h
    exact connection_open_active now states conn st h
  · intro t0 t1 conn
    have h1 : connection_open t0 emptyTable conn =
        ([Message.active { as_of := t0, connection := conn }],
         tableInsert emptyTable conn (Message.active { as_of := t0, connection := conn })) := by
      simp [connection_open, emptyTable]
    have hlook : (connection_open t0 emptyTable conn).2 conn =
        some (Message.active { as_of := t0, connection := conn }) := by
      rw [h1]
      simp [tableInsert]
    have h2 := connection_open_active t1 (connection_open t0 emptyTable conn).2 conn
      { as_of := t0, connection := conn } hlook
    refine ⟨by rw [h1]; rfl, ?_⟩
    by_cases hc : (30 * 1000000000 : Int) < t1 - t0
    · rw [if_pos hc, h2.1 hc]
      rfl
    · rw [if_neg hc, h2.2 hc]
      rfl

/-- C3 witness: a concrete Active entry taken 31 seconds earlier is
refreshed. -/
theorem C3_heartbeat_strict_gate_witness :
    (tableInsert emptyTable connAB (Message.active { as_of := 0, connection := connAB })) connAB =
      some (Message.active { as_of := 0, connection := connAB }) ∧
    (30 * 1000000000 : Int) <
      31000000000 - (State.mk 0 connAB).as_of ∧
    connection_open 31000000000
        (tableInsert emptyTable connAB (Message.active { as_of := 0, connection := connAB }))
        connAB =
      ([Message.active { as_of := 31000000000, connection := connAB }],
       tableInsert
         (tableInsert emptyTable connAB (Message.active { as_of := 0, connection := connAB }))
         connAB (Message.active { as_of := 31000000000, connection := connAB })) :=
  ⟨by decide, by decide,
    (C3_heartbeat_strict_gate.1 31000000000 _ connAB { as_of := 0, connection := connAB }
      (by decide)).1 (by decide)⟩

/-- C4 counterexample: the claim says that after 5 consecutive
connection failures the 6th attempt waits until 10 seconds past the
streak start.  Simulating 6 straight failures, all six attempts start
at instant 0: the 6th attempt is not delayed at all. -/
theorem C4_sixth_attempt_undelayed :
    attemptTimes (List.replicate 6 false) 0 = [0, 0, 0, 0, 0, 0] ∧
    ¬ 10 ≤ (attemptTimes (List.replicate 6 false) 0).getD 5 0 := by
  decide

/-- C4 (amended): the penalty sleep fires only once `tries` exceeds 5,
i.e. after six consecutive failures: with the first six attempts
failing, attempts 1 through 6 all start at the streak origin `t0`
(the 6th is undelayed) and the 7th attempt starts exactly at
`t0 + 10` seconds, whatever the later outcomes are.  Each worker's
schedule is a function of its own outcome list alone. -/
theorem C4_backoff_after_six_failures (t0 : Nat) (o : Bool) (rest : List Bool) :
    (attemptTimes ([false, false, false, false, false, false] ++ o :: rest) t0)[0]? = some t0 ∧
    (attemptTimes ([false, false, false, false, false, false] ++ o :: rest) t0)[5]? = some t0 ∧
    (attemptTimes ([false, false, false, false, false, false] ++ o :: rest) t0)[6]? =
      some (t0 + RETRY_BACKOFF_SECS) := by
  simp [attemptTimes, connectAttempts, RETRY_BACKOFF_TRIES, RETRY_BACKOFF_SECS,
    Nat.max_eq_right (Nat.le_add_right t0 10)]

/-- C5 counterexample: the claim says every UDP packet on port 53 whose
payload parses as DNS yields both an Ended and a Name message.  A DNS
payload that parses with an empty question section (here, one answer
and no questions) yields no messages at all: `handle_dns` returns
early before `send_names`. -/
theorem C5_dns_no_questions_emits_nothing :
    (handle_udp 0 emptyTable 0 (some { source_port := 5555, dest_port := 53 })
        (some { questions := [], answers := [{ name := "x", rdata := .a 1 2 3 4 }] })
        { src := ipA, dst := ipB }).1 = [] := by
  decide

/-- C5 (amended): a UDP packet with port 53 on either side whose
payload parses as DNS with at least one question emits exactly two
messages, an `Ended(Connectionless)` (which overwrites the table entry)
followed by a `Name` for the same Connection and the same timestamp,
the name list holding one entry per question followed by one entry per
answer; a DNS parse with no questions emits nothing. -/
theorem C5_dns_dual_emission :
    (∀ (now : Int) (states : Table) (interface : Nat) (pkt : UdpHeader)
        (d : DnsPacket) (hosts : HostPair),
      pkt.dest_port = 53 ∨ pkt.source_port = 53 →
      d.questions ≠ [] →
      handle_udp now states interface (some pkt) (some d) hosts =
        ([Message.ended
            { as_of := now, connection :=
              { interface
                src := { addr := hosts.src, port := pkt.source_port }
                dst := { addr := hosts.dst, port := pkt.dest_port }
                protocol := .udp } } .connectionless,
          Message.name
            { as_of := now, connection :=
              { interface
                src := { addr := hosts.src, port := pkt.source_port }
                dst := { addr := hosts.dst, port := pkt.dest_port }
                protocol := .udp } }
            (d.questions.map questionToName ++ d.answers.map recordToName)],
         tableInsert states
           { interface
             src := { addr := hosts.src, port := pkt.source_port }
             dst := { addr := hosts.dst, port := pkt.dest_port }
             protocol := .udp }
           (Message.ended
             { as_of := now, connection :=
               { interface
                 src := { addr := hosts.src, port := pkt.source_port }
                 dst := { addr := hosts.dst, port := pkt.dest_port }
                 protocol := .udp } } .connectionless)) ∧
      (d.questions.map questionToName ++ d.answers.map recordToName).length =
        d.questions.length + d.answers.length) ∧
    (∀ (now : Int) (states : Table) (interface : Nat) (pkt : UdpHeader)
        (ans : List ResourceRecord) (hosts : HostPair),
      pkt.dest_port = 53 ∨ pkt.source_port = 53 →
      handle_udp now states interface (some pkt)
        (some { questions := [], answers := ans }) hosts = ([], states)) := by
  constructor
  · intro now states interface pkt d hosts hport hq
    have hcond : (pkt.dest_port = 53 || pkt.source_port = 53) = true := by
      rcases hport with h | h <;> simp [h]
    cases hqs : d.questions with
    | nil => exact absurd hqs hq
    | cons q qs =>
        refine ⟨?_, by simp [hqs]; omega⟩
        simp [handle_udp, hcond, handle_dns, hqs, send_names, connection_closed]
  · intro now states interface pkt ans hosts hport
    have hcond : (pkt.dest_port = 53 || pkt.source_port = 53) = true := by
      rcases hport with h | h <;> simp [h]
    simp [handle_udp, hcond, handle_dns]

/-- C5 witness: one question and one answer yield exactly the two
messages, the Name carrying two entries. -/
theorem C5_dns_dual_emission_witness :
    ((5555 : Nat) = 53 ∨ (53 : Nat) = 53) ∧
    (DnsPacket.questions
      { questions := [{ qname := "example.com" }],
        answers := [{ name := "example.com", rdata := .a 93 184 216 34 }] } ≠ []) ∧
    (handle_udp 0 emptyTable 7 (some { source_port := 5555, dest_port := 53 })
        (some { questions := [{ qname := "example.com" }],
                answers := [{ name := "example.com", rdata := .a 93 184 216 34 }] })
        { src := ipA, dst := ipB } =
      ([Message.ended
          { as_of := 0, connection :=
            { interface := 7
              src := { addr := ipA, port := 5555 }
              dst := { addr := ipB, port := 53 }
              protocol := .udp } } .connectionless,
        Message.name
          { as_of := 0, connection :=
            { interface := 7
              src := { addr := ipA, port := 5555 }
              dst := { addr := ipB, port := 53 }
              protocol := .udp } }
          ([{ qname := "example.com" : DnsQuestion }].map questionToName ++
            [{ name := "example.com", rdata := .a 93 184 216 34 : ResourceRecord }].map recordToName)],
       tableInsert emptyTable
         { interface := 7
           src := { addr := ipA, port := 5555 }
           dst := { addr := ipB, port := 53 }
           protocol := .udp }
         (Message.ended
           { as_of := 0, connection :=
             { interface := 7
               src := { addr := ipA, port := 5555 }
               dst := { addr := ipB, port := 53 }
               protocol := .udp } } .connectionless)) ∧
      ([{ qname := "example.com" : DnsQuestion }].map questionToName ++
        [{ name := "example.com", rdata := .a 93 184 216 34 : ResourceRecord }].map recordToName).length = 1 + 1) :=
  ⟨by decide, by decide,
    C5_dns_dual_emission.1 0 emptyTable 7 { source_port := 5555, dest_port := 53 }
      { questions := [{ qname := "example.com" }],
        answers := [{ name := "example.com", rdata := .a 93 184 216 34 }] }
      { src := ipA, dst := ipB } (by decide) (by decide)⟩

/-- C6 counterexample: the claim says the hello frame's payload is the
WireCodec encoding of the identity string (which would prefix the
length twice).  The code sends `String::encode` output directly: for
identity string of bytes 97 98 the wire holds 4 bytes, not the
6-byte double-framed form the claim predicts. -/
theorem C6_hello_not_double_framed :
    client_hello "ab" = [0, 2, 97, 98] ∧
    vecU8Encode (Str.encode "ab") = [0, 4, 0, 2, 97, 98] ∧
    client_hello "ab" ≠ vecU8Encode (Str.encode "ab") := by
  decide

/-- C6 (amended): on every successful connection the worker writes,
exactly once and before any message frame, the hello buffer, which is
the WireCodec String encoding of the identity — equivalently the outer
2-byte big-endian length-prefixed framing applied to the identity's raw
UTF-8 bytes (applied once, not to the already-encoded string); every
subsequent message frame is the same outer framing around its payload,
the prefix holding exactly the payload length. -/
theorem C6_hello_and_framing :
    (∀ ident : String, client_hello ident = vecU8Encode (utf8Bytes ident)) ∧
    (∀ payload : List Nat, (∀ b ∈ payload, b < 256) →
      send_frame payload = encU16 payload.length ++ payload ∧
      (payload.length < 65536 →
        decU16 (send_frame payload) = some (payload.length, payload))) ∧
    (∀ (ident : String) (frames : List (List Nat)),
      worker_stream ident frames = client_hello ident ++ (frames.map send_frame).flatten) := by
  refine ⟨fun ident => rfl, ?_, fun ident frames => rfl⟩
  intro payload hb
  have hfm : payload.flatMap encU8 = payload := flatMap_encU8 payload hb
  constructor
  · simp [send_frame, vecU8Encode, vecEncode, hfm]
  · intro hlen
    simp [send_frame, vecU8Encode, vecEncode, hfm, decU16_encU16, Nat.mod_eq_of_lt hlen]

/-- C6 witness: a concrete payload is framed with its exact length. -/
theorem C6_hello_and_framing_witness :
    (∀ b ∈ [104, 105, 33], b < 256) ∧
    (send_frame [104, 105, 33] = encU16 ([104, 105, 33] : List Nat).length ++ [104, 105, 33] ∧
      (([104, 105, 33] : List Nat).length < 65536 →
        decU16 (send_frame [104, 105, 33]) =
          some (([104, 105, 33] : List Nat).length, [104, 105, 33]))) :=
  ⟨by decide, C6_hello_and_framing.2.1 [104, 105, 33] (by decide)⟩

/-- C7: terminal events are never suppressed: `connection_closed` and
`connection_unavail` unconditionally emit exactly one message and
overwrite the table entry; a classified TCP packet with RST or FIN, a
non-DNS UDP packet, and an ICMP packet with a recoverable embedded flow
each produce exactly that; N consecutive RST packets on one Connection
yield N Ended(Reset) messages. -/
theorem C7_terminal_events_unsuppressed :
    (∀ (now : Int) (states : Table) (conn : Connection) (how : Closed),
      connection_closed now states conn how =
        ([Message.ended { as_of := now, connection := conn } how],
         tableInsert states conn (Message.ended { as_of := now, connection := conn } how))) ∧
    (∀ (now : Int) (states : Table) (conn : Connection) (problem : Problem),
      connection_unavail now states conn problem =
        ([Message.failed { as_of := now, connection := conn } problem],
         tableInsert states conn (Message.failed { as_of := now, connection := conn } problem))) ∧
    (∀ (now : Int) (states : Table) (interface : Nat) (pkt : TcpHeader) (hosts : HostPair),
      (pkt.flag_rst || pkt.flag_fin) = true →
      handle_tcp now states interface (some pkt) hosts =
        ([Message.ended
            { as_of := now, connection :=
              { interface
                src := { addr := hosts.src, port := pkt.source_port }
                dst := { addr := hosts.dst, port := pkt.dest_port }
                protocol := .tcp } }
            (if pkt.flag_rst then .reset else .normally)],
         tableInsert states
           { interface
             src := { addr := hosts.src, port := pkt.source_port }
             dst := { addr := hosts.dst, port := pkt.dest_port }
             protocol := .tcp }
           (Message.ended
             { as_of := now, connection :=
               { interface
                 src := { addr := hosts.src, port := pkt.source_port }
                 dst := { addr := hosts.dst, port := pkt.dest_port }
                 protocol := .tcp } }
             (if pkt.flag_rst then .reset else .normally)))) ∧
    (∀ (now : Int) (states : Table) (interface : Nat) (pkt : UdpHeader)
        (dns : Option DnsPacket) (hosts : HostPair),
      ¬ pkt.dest_port = 53 → ¬ pkt.source_port = 53 →
      (handle_udp now states interface (some pkt) dns hosts).1 =
        [Message.ended
          { as_of := now, connection :=
            { interface
              src := { addr := hosts.src, port := pkt.source_port }
              dst := { addr := hosts.dst, port := pkt.dest_port }
              protocol := .udp } } .connectionless]) ∧
    (∀ (now : Int) (states : Table) (interface : Nat) (pkt : IcmpParse)
        (emb : UdpHeader) (hosts : HostPair),
      pkt.udpEmb = some emb →
      (handle_icmp now states interface (some pkt) hosts).1 =
        [Message.failed
          { as_of := now, connection :=
            { interface
              src := { addr := hosts.src, port := emb.source_port }
              dst := { addr := hosts.dst, port := emb.dest_port }
              protocol := .udp } } pkt.problem]) ∧
    (∀ (now : Int) (states : Table) (interface : Nat) (pkt : IcmpParse)
        (emb : TcpHeader) (hosts : HostPair),
      pkt.udpEmb = none → pkt.tcpEmb = some emb →
      (handle_icmp now states interface (some pkt) hosts).1 =
        [Message.failed
          { as_of := now, connection :=
            { interface
              src := { addr := hosts.src, port := emb.source_port }
              dst := { addr := hosts.dst, port := emb.dest_port }
              protocol := .tcp } } pkt.problem]) ∧
    (∀ (now : Int) (states : Table) (interface : Nat) (pkt : TcpHeader)
        (hosts : HostPair) (n : Nat),
      pkt.flag_rst = true →
      (iterTcp now states interface pkt hosts n).1.length = n ∧
      ∀ m ∈ (iterTcp now states interface pkt hosts n).1,
        ∃ st, m = Message.ended st .reset) := by
  refine ⟨fun _ _ _ _ => rfl, fun _ _ _ _ => rfl, ?_, ?_, ?_, ?_, ?_⟩
  · intro now states interface pkt hosts hflags
    simp [handle_tcp, hflags, connection_closed]
  · intro now states interface pkt dns hosts h1 h2
    have hcond : (pkt.dest_port = 53 || pkt.source_port = 53) = false := by
      simp [h1, h2]
    simp [handle_udp, hcond, connection_closed]
  · intro now states interface pkt emb hosts hu
    simp [handle_icmp, hu, connection_unavail]
  · intro now states interface pkt emb hosts hu ht
    simp [handle_icmp, hu, ht, connection_unavail]
  · intro now states interface pkt hosts n hrst
    exact iterTcp_rst now interface pkt hosts hrst n states

/-- C7 witness: three consecutive RST packets on the A-to-B flow yield
three Ended(Reset) messages. -/
theorem C7_terminal_events_unsuppressed_witness :
    ((TcpHeader.mk 4000 80 true false).flag_rst = true) ∧
    ((iterTcp 0 emptyTable 0 (TcpHeader.mk 4000 80 true false)
        { src := ipA, dst := ipB } 3).1.length = 3 ∧
      ∀ m ∈ (iterTcp 0 emptyTable 0 (TcpHeader.mk 4000 80 true false)
          { src := ipA, dst := ipB } 3).1,
        ∃ st, m = Message.ended st .reset) :=
  ⟨by decide,
    C7_terminal_events_unsuppressed.2.2.2.2.2.2 0 emptyTable 0
      (TcpHeader.mk 4000 80 true false) { src := ipA, dst := ipB } 3 (by decide)⟩

/-- C8: every enumerated variant encodes with exactly its fixed tag
byte as first byte (Protocol Tcp=1/Udp=2; Closed Normally=1, Reset=2,
Connectionless=3, TimedOut=4; Message Active=1, Ended=2, Failed=3,
Name=4; Resolution Address=1, Alias=2, Service=3, Text=4), and decoding
any tag byte outside the listed set for a type fails. -/
theorem C8_tag_stability :
    (Protocol.encode .tcp = [1] ∧ Protocol.encode .udp = [2]) ∧
    (Closed.encode .normally = [1] ∧ Closed.encode .reset = [2] ∧
      Closed.encode .connectionless = [3] ∧ Closed.encode .timedOut = [4]) ∧
    (∀ (st : State) (bs : List Nat),
      Message.encode (.active st) = some bs → bs.head? = some ACTIVE_MARK) ∧
    (∀ (st : State) (cl : Closed) (bs : List Nat),
      Message.encode (.ended st cl) = some bs → bs.head? = some ENDED_MARK) ∧
    (∀ (st : State) (pr : Problem) (bs : List Nat),
      Message.encode (.failed st pr) = some bs → bs.head? = some FAILED_MARK) ∧
    (∀ (st : State) (ns : List Name) (bs : List Nat),
      Message.encode (.name st ns) = some bs → bs.head? = some NAME_MARK) ∧
    (∀ a, (Resolution.encode (.address a)).head? = some ADDR_MARK) ∧
    (∀ s, (Resolution.encode (.alias s)).head? = some ALIAS_MARK) ∧
    (∀ s p, (Resolution.encode (.service s p)).head? = some SVC_MARK) ∧
    (∀ ts, (Resolution.encode (.text ts)).head? = some TEXT_MARK) ∧
    (∀ (b : Nat) (l : List Nat), b < 256 → b ≠ TCP_MARK → b ≠ UDP_MARK →
      Protocol.decode (b :: l) = none) ∧
    (∀ (b : Nat) (l : List Nat), b < 256 → b ≠ NORMAL_MARK → b ≠ RESET_MARK →
      b ≠ CLESS_MARK → b ≠ TMOUT_MARK → Closed.decode (b :: l) = none) ∧
    (∀ (b : Nat) (l : List Nat), b < 256 → b ≠ ACTIVE_MARK → b ≠ ENDED_MARK →
      b ≠ FAILED_MARK → b ≠ NAME_MARK → Message.decode (b :: l) = none) ∧
    (∀ (b : Nat) (l : List Nat), b < 256 → b ≠ ADDR_MARK → b ≠ ALIAS_MARK →
      b ≠ SVC_MARK → b ≠ TEXT_MARK → Resolution.decode (b :: l) = none) := by
  refine ⟨⟨rfl, rfl⟩, ⟨rfl, rfl, rfl, rfl⟩, ?_, ?_, ?_, ?_,
    fun a => rfl, fun s => rfl, fun s p => rfl, fun ts => rfl, ?_, ?_, ?_, ?_⟩
  · intro st bs h
    cases hs : State.encode st with
    | none => simp [Message.encode, hs] at h
    | some s =>
        simp only [Message.encode, hs, Option.bind_eq_bind, Option.some_bind,
          Option.some.injEq] at h
        rw [← h]
        rfl
  · intro st cl bs h
    cases hs : State.encode st with
    | none => simp [Message.encode, hs] at h
    | some s =>
        simp only [Message.encode, hs, Option.bind_eq_bind, Option.some_bind,
          Option.some.injEq] at h
        rw [← h]
        rfl
  · intro st pr bs h
    cases hs : State.encode st with
    | none => simp [Message.encode, hs] at h
    | some s =>
        simp only [Message.encode, hs, Option.bind_eq_bind, Option.some_bind,
          Option.some.injEq] at h
        rw [← h]
        rfl
  · intro st ns bs h
    cases hs : State.encode st with
    | none => simp [Message.encode, hs] at h
    | some s =>
        simp only [Message.encode, hs, Option.bind_eq_bind, Option.some_bind,
          Option.some.injEq] at h
        rw [← h]
        rfl
  · intro b l hlt h1 h2
    simp only [TCP_MARK] at h1
    simp only [UDP_MARK] at h2
    simp [Protocol.decode, decU8, Nat.mod_eq_of_lt hlt, TCP_MARK, UDP_MARK, h1, h2]
  · intro b l hlt h1 h2 h3 h4
    simp only [NORMAL_MARK] at h1
    simp only [RESET_MARK] at h2
    simp only [CLESS_MARK] at h3
    simp [Closed.decode, decU8, Nat.mod_eq_of_lt hlt, NORMAL_MARK, RESET_MARK,
      CLESS_MARK, h1, h2, h3]
  · intro b l hlt h1 h2 h3 h4
    simp only [ACTIVE_MARK] at h1
    simp only [ENDED_MARK] at h2
    simp only [FAILED_MARK] at h3
    simp only [NAME_MARK] at h4
    simp [Message.decode, decU8, Nat.mod_eq_of_lt hlt, ACTIVE_MARK, ENDED_MARK,
      FAILED_MARK, NAME_MARK, h1, h2, h3, h4]
  · intro b l hlt h1 h2 h3 h4
    simp only [ADDR_MARK] at h1
    simp only [ALIAS_MARK] at h2
    simp only [SVC_MARK] at h3
    simp only [TEXT_MARK] at h4
    simp [Resolution.decode, decU8, Nat.mod_eq_of_lt hlt, ADDR_MARK, ALIAS_MARK,
      SVC_MARK, TEXT_MARK, h1, h2, h3, h4]

/-- C8 witness: tag byte 9 is rejected by every decoder, and a concrete
Active message encodes with first byte 1. -/
theorem C8_tag_stability_witness :
    ((9 : Nat) < 256 ∧ (9 : Nat) ≠ TCP_MARK ∧ (9 : Nat) ≠ UDP_MARK ∧
      (9 : Nat) ≠ NORMAL_MARK ∧ (9 : Nat) ≠ RESET_MARK ∧ (9 : Nat) ≠ CLESS_MARK ∧
      (9 : Nat) ≠ TMOUT_MARK) ∧
    Protocol.decode (9 :: [0, 1]) = none ∧
    Closed.decode (9 :: [0, 1]) = none ∧
    Message.decode (9 :: [0, 1]) = none ∧
    Resolution.decode (9 :: [0, 1]) = none ∧
    (Message.encode (.active { as_of := 0, connection := connAB }) =
        some ((Message.encode (.active { as_of := 0, connection := connAB })).getD []) ∧
      ((Message.encode (.active { as_of := 0, connection := connAB })).getD []).head? =
        some ACTIVE_MARK) :=
  ⟨by decide,
   C8_tag_stability.2.2.2.2.2.2.2.2.2.2.1 9 [0, 1] (by decide) (by decide) (by decide),
   C8_tag_stability.2.2.2.2.2.2.2.2.2.2.2.1 9 [0, 1] (by decide) (by decide) (by decide)
     (by decide) (by decide),
   C8_tag_stability.2.2.2.2.2.2.2.2.2.2.2.2.1 9 [0, 1] (by decide) (by decide) (by decide)
     (by decide) (by decide),
   C8_tag_stability.2.2.2.2.2.2.2.2.2.2.2.2.2 9 [0, 1] (by decide) (by decide) (by decide)
     (by decide) (by decide),
   by decide,
   C8_tag_stability.2.2.1 { as_of := 0, connection := connAB } _ (by decide)⟩

/-- C9: `CodingVec` length prefixes truncate silently: for any element
list of length at least `2^(8w)` (w the prefix width in bytes, 1, 2 or
4), encoding succeeds, writing the length reduced mod `2^(8w)` followed
by every element, so decoding the encoder's own output returns only the
truncated-length prefix of the list, never the original list; the
`Name` list of a Name message uses the 1-byte width, its first encoded
byte being the count mod 256. -/
theorem C9_length_truncation :
    (∀ xs : List Nat, (∀ b ∈ xs, b < 256) → 256 ≤ xs.length →
      vecEncode encU8 encU8 xs = encU8 xs.length ++ xs ∧
      encU8 xs.length = [xs.length % 256] ∧
      vecDecode decU8 decU8 (vecEncode encU8 encU8 xs) =
        some (xs.take (xs.length % 256), xs.drop (xs.length % 256)) ∧
      xs.take (xs.length % 256) ≠ xs) ∧
    (∀ xs : List Nat, (∀ b ∈ xs, b < 256) → 65536 ≤ xs.length →
      vecEncode encU16 encU8 xs = encU16 xs.length ++ xs ∧
      encU16 xs.length = [xs.length / 256 % 256, xs.length % 256] ∧
      vecDecode decU16 decU8 (vecEncode encU16 encU8 xs) =
        some (xs.take (xs.length % 65536), xs.drop (xs.length % 65536)) ∧
      xs.take (xs.length % 65536) ≠ xs) ∧
    (∀ xs : List Nat, (∀ b ∈ xs, b < 256) → 4294967296 ≤ xs.length →
      vecEncode encU32 encU8 xs = encU32 xs.length ++ xs ∧
      vecDecode decU32 decU8 (vecEncode encU32 encU8 xs) =
        some (xs.take (xs.length % 4294967296), xs.drop (xs.length % 4294967296)) ∧
      xs.take (xs.length % 4294967296) ≠ xs) ∧
    (∀ names : List Name,
      (vecEncode encU8 Name.encode names).head? = some (names.length % 256)) := by
  refine ⟨?_, ?_, ?_, fun names => rfl⟩
  · intro xs hb hlen
    have h := cvByteTruncation 256 (by norm_num) encU8 decU8 decU8_encU8 xs hb hlen
    exact ⟨h.1, rfl, h.2.1, h.2.2⟩
  · intro xs hb hlen
    have h := cvByteTruncation 65536 (by norm_num) encU16 decU16 decU16_encU16 xs hb hlen
    exact ⟨h.1, rfl, h.2.1, h.2.2⟩
  · intro xs hb hlen
    have h := cvByteTruncation 4294967296 (by norm_num) encU32 decU32 decU32_encU32 xs hb hlen
    exact ⟨h.1, h.2.1, h.2.2⟩

/-- C9 witness: a 300-byte list with a 1-byte prefix encodes its length
as 44 and decodes back to only its first 44 elements. -/
theorem C9_length_truncation_witness :
    (∀ b ∈ List.replicate 300 (7 : Nat), b < 256) ∧
    256 ≤ (List.replicate 300 (7 : Nat)).length ∧
    (vecEncode encU8 encU8 (List.replicate 300 (7 : Nat)) =
        encU8 (List.replicate 300 (7 : Nat)).length ++ List.replicate 300 (7 : Nat) ∧
      encU8 (List.replicate 300 (7 : Nat)).length =
        [(List.replicate 300 (7 : Nat)).length % 256] ∧
      vecDecode decU8 decU8 (vecEncode encU8 encU8 (List.replicate 300 (7 : Nat))) =
        some ((List.replicate 300 (7 : Nat)).take ((List.replicate 300 (7 : Nat)).length % 256),
          (List.replicate 300 (7 : Nat)).drop ((List.replicate 300 (7 : Nat)).length % 256)) ∧
      (List.replicate 300 (7 : Nat)).take ((List.replicate 300 (7 : Nat)).length % 256) ≠
        List.replicate 300 (7 : Nat)) :=
  ⟨fun b hb => by rw [List.eq_of_mem_replicate hb]; omega,
    by rw [List.length_replicate]; omega,
    C9_length_truncation.1 (List.replicate 300 7)
      (fun b hb => by rw [List.eq_of_mem_replicate hb]; omega)
      (by rw [List.length_replicate]; omega)⟩

/-- C10: encoding a `SystemTime` before the UNIX epoch fails
(`duration_since` errs), and this propagates: every State and every
Message whose `as_of` precedes the epoch is unencodable; any time at or
after the epoch encodes as 8 bytes of seconds followed by 4 bytes of
nanoseconds. -/
theorem C10_pre_epoch_unencodable :
    (∀ t : Int, t < 0 → sysTimeEncode t = none) ∧
    (∀ (t : Int) (conn : Connection), t < 0 →
      State.encode { as_of := t, connection := conn } = none) ∧
    (∀ m : Message, m.stateOf.as_of < 0 → Message.encode m = none) ∧
    (∀ t : Int, 0 ≤ t →
      sysTimeEncode t =
        some (encU64 (t.toNat / 1000000000) ++ encU32 (t.toNat % 1000000000)) ∧
      (encU64 (t.toNat / 1000000000)).length = 8 ∧
      (encU32 (t.toNat % 1000000000)).length = 4) := by
  refine ⟨?_, ?_, ?_, ?_⟩
  · intro t ht
    simp [sysTimeEncode, ht]
  · intro t conn ht
    simp [State.encode, sysTimeEncode, ht]
  · intro m hm
    cases m with
    | active st =>
        simp only [Message.stateOf] at hm
        simp [Message.encode, State.encode, sysTimeEncode, hm]
    | ended st cl =>
        simp only [Message.stateOf] at hm
        simp [Message.encode, State.encode, sysTimeEncode, hm]
    | failed st pr =>
        simp only [Message.stateOf] at hm
        simp [Message.encode, State.encode, sysTimeEncode, hm]
    | name st ns =>
        simp only [Message.stateOf] at hm
        simp [Message.encode, State.encode, sysTimeEncode, hm]
  · intro t ht
    have hnot : ¬ t < 0 := not_lt.mpr ht
    exact ⟨by simp [sysTimeEncode, hnot], by simp [encU64, encU32, encU16, encU8],
      by simp [encU32, encU16, encU8]⟩

/-- C10 witness: a time one nanosecond before the epoch is unencodable
at every level, and a post-epoch time encodes as 12 bytes. -/
theorem C10_pre_epoch_unencodable_witness :
    ((-1 : Int) < 0 ∧ sysTimeEncode (-1) = none) ∧
    (State.encode { as_of := -1, connection := connAB } = none) ∧
    ((Message.stateOf (.active { as_of := -1, connection := connAB })).as_of < 0 ∧
      Message.encode (.active { as_of := -1, connection := connAB }) = none) ∧
    ((0 : Int) ≤ 1500000007 ∧
      (sysTimeEncode 1500000007 =
        some (encU64 ((1500000007 : Int).toNat / 1000000000) ++
          encU32 ((1500000007 : Int).toNat % 1000000000)) ∧
      (encU64 ((1500000007 : Int).toNat / 1000000000)).length = 8 ∧
      (encU32 ((1500000007 : Int).toNat % 1000000000)).length = 4)) :=
  ⟨⟨by decide, C10_pre_epoch_unencodable.1 (-1) (by decide)⟩,
   C10_pre_epoch_unencodable.2.1 (-1) connAB (by decide),
   ⟨by decide, C10_pre_epoch_unencodable.2.2.1
     (.active { as_of := -1, connection := connAB }) (by decide)⟩,
   ⟨by decide, C10_pre_epoch_unencodable.2.2.2 1500000007 (by decide)⟩⟩

end Glosco
